import Mathlib

/-!
Portfolio page scripts: a shallow embedding of `scripts/script.js`.

The browser-side behaviours of the page are modelled as pure functions on explicit
state records: the theme store, the resource preloader, the loader gate, the content
loaders, the matrix background and the section observer.  Time is measured in
milliseconds as a natural number; a timer set at time `t` with delay `d` runs at `t + d`.
-/

namespace Portfolio

/-! ## Theme store (`applyTheme`, `initTheme`, `toggleTheme`) -/

/-- The storage key under which the theme preference is kept. -/
def THEME_KEY : String := "themePreference"

/-- The part of the page the theme code reads and writes.
`classList` is `document.documentElement.classList`, `toggleBtn` the `innerHTML` of
`#theme-toggle` (`none` when the element is absent), `stored` the `localStorage` entry
under `THEME_KEY`, `getItemRaises` / `setItemRaises` say whether reading / writing
`localStorage` raises, and `dispatched` lists the events dispatched on `document`. -/
structure ThemeState where
  classList : List String
  toggleBtn : Option String
  stored : Option String
  getItemRaises : Bool
  setItemRaises : Bool
  dispatched : List String
  deriving DecidableEq, Repr

/-- Result of running a statement sequence: the state reached and whether an exception
escaped (the effects made before the exception are kept, as in JavaScript). -/
structure Run (σ : Type) where
  state : σ
  raised : Bool
  deriving DecidableEq, Repr

/-- ASCII whitespace, the characters `DOMTokenList.add` rejects inside a token. -/
def isAsciiWhitespace (c : Char) : Bool :=
  c = ' ' || c = '\t' || c = '\n' || c = '\x0c' || c = '\r'

/-- Effect of `classList.remove('theme-light', 'theme-dark')`. -/
def removeThemeClasses (cl : List String) : List String :=
  cl.filter (fun c => c != "theme-light" && c != "theme-dark")

/-- Effect of `classList.add(tok)` for a valid token: a token already present is not repeated. -/
def addToken (cl : List String) (tok : String) : List String :=
  if tok ∈ cl then cl else cl ++ [tok]

/-- Markup of the sun icon shown in light mode. -/
def sunIcon : String := "<i class=\"fas fa-sun\"></i>"

/-- Markup of the moon icon shown otherwise. -/
def moonIcon : String := "<i class=\"fas fa-moon\"></i>"

/-- Embedding of `applyTheme(theme)`: drop both theme classes, add the class named after
`theme` (an invalid class token makes `classList.add` raise), then refresh the button icon
when the button exists. -/
def applyTheme (theme : String) (s : ThemeState) : Run ThemeState :=
  let s1 := { s with classList := removeThemeClasses s.classList }
  if theme.data.any isAsciiWhitespace then ⟨s1, true⟩
  else
    let s2 := { s1 with classList := addToken s1.classList ("theme-" ++ theme) }
    let icon := if theme = "light" then sunIcon else moonIcon
    ⟨{ s2 with toggleBtn := s2.toggleBtn.map (fun _ => icon) }, false⟩

/-- The theme `initTheme` selects: `stored || (prefersLight ? 'light' : 'dark')`, where
`prefersLight` is `window.matchMedia && window.matchMedia(...).matches`
(`matchMedia = none` when the platform has no `matchMedia`). -/
def chosenTheme (stored : Option String) (matchMedia : Option Bool) : String :=
  let prefersLight := matchMedia.getD false
  match stored with
  | some v => if v = "" then (if prefersLight then "light" else "dark") else v
  | none => if prefersLight then "light" else "dark"

/-- Embedding of `initTheme()`. -/
def initTheme (matchMedia : Option Bool) (s : ThemeState) : Run ThemeState :=
  if s.getItemRaises then ⟨s, true⟩
  else applyTheme (chosenTheme s.stored matchMedia) s

/-- Embedding of `toggleTheme()`; the event dispatch is wrapped in `try` in the source,
so only `applyTheme` and `localStorage.setItem` can raise. -/
def toggleTheme (s : ThemeState) : Run ThemeState :=
  let isDark := decide ("theme-dark" ∈ s.classList)
  let next := if isDark then "light" else "dark"
  let r := applyTheme next s
  if r.raised then r
  else if r.state.setItemRaises then ⟨r.state, true⟩
  else ⟨{ r.state with stored := some next,
                       dispatched := r.state.dispatched ++ ["themechange"] }, false⟩

/-- State after `n` successive calls of `toggleTheme`. -/
def toggleN : Nat → ThemeState → ThemeState
  | 0, s => s
  | n + 1, s => toggleN n (toggleTheme s).state

/-- The active visual mode read off the root element: `some "dark"` / `some "light"` when
exactly that theme class is present, `none` otherwise. -/
def activeMode (s : ThemeState) : Option String :=
  let d := decide ("theme-dark" ∈ s.classList)
  let l := decide ("theme-light" ∈ s.classList)
  if d && !l then some "dark" else if l && !d then some "light" else none

/-- The other one of the two modes. -/
def opposite (m : String) : String := if m = "dark" then "light" else "dark"

/-- A freshly loaded page: no theme class, a toggle button, empty working storage. -/
def freshPage : ThemeState :=
  { classList := [], toggleBtn := some "", stored := none,
    getItemRaises := false, setItemRaises := false, dispatched := [] }

/-- A page whose local storage is unavailable: reading and writing both raise. -/
def blockedPage : ThemeState :=
  { freshPage with getItemRaises := true, setItemRaises := true, classList := ["theme-dark"] }

/-- The page `initTheme` leaves behind on a fresh profile without a light-scheme hint. -/
def startedPage : ThemeState := (initTheme none freshPage).state

/-- A fresh page whose profile stored the preference `light`. -/
def lightStoredPage : ThemeState := { freshPage with stored := some "light" }

/-- A fresh page whose profile holds the value `blue` under the preference key. -/
def blueStoredPage : ThemeState := { freshPage with stored := some "blue" }

/-- A page showing the dark mode whose profile holds the value `my theme`. -/
def spacedStoredPage : ThemeState :=
  { freshPage with stored := some "my theme", classList := ["no-js", "theme-dark"] }

/-! ## Resource preloader (`preloadResources`) -/

/-- The `as` role of a collected resource descriptor. -/
inductive Role where
  | style
  | script
  | image
  | preconnect
  deriving DecidableEq, Repr

/-- The string the source uses for a role. -/
def Role.toString : Role → String
  | .style => "style"
  | .script => "script"
  | .image => "image"
  | .preconnect => "preconnect"

/-- One entry of `resources`: the object pushed by the document scan. -/
structure Resource where
  href : String
  as : Role
  deriving DecidableEq, Repr

/-- A `<link>` element appended to `document.head`; `as` is its `as` attribute
(unset on a preconnect link) and `crossOrigin` its `crossOrigin` attribute. -/
structure Link where
  rel : String
  as : Option String
  href : String
  crossOrigin : Option String
  deriving DecidableEq, Repr

/-- The promise made for one entry of `resources`: the link it appended (if any) and the
time, counted from the call of `preloadResources`, at which it resolves. -/
structure Pending where
  link : Option Link
  settleAt : Nat
  deriving DecidableEq, Repr

/-- Delay of the timer that resolves a preconnect promise. -/
def PRECONNECT_DELAY : Nat := 50

/-- The body of the `resources.map` callback for one descriptor, with the `seen` set as
explicit state.  `ev href` is the time at which the link for `href` fires `load` or
`error` (`none`: it never does); `finish` runs at the first of that event and the
`timeout` timer. -/
def preloadOne (timeout : Nat) (ev : String → Option Nat) (seen : List String)
    (r : Resource) : List String × Pending :=
  if r.href = "" then (seen, ⟨none, 0⟩)
  else if r.href ∈ seen then (seen, ⟨none, 0⟩)
  else if r.as = Role.preconnect then
    (r.href :: seen, ⟨some ⟨"preconnect", none, r.href, some ""⟩, PRECONNECT_DELAY⟩)
  else
    let fired := match ev r.href with
      | some t => min t timeout
      | none => timeout
    (r.href :: seen, ⟨some ⟨"preload", some r.as.toString, r.href, none⟩, fired⟩)

/-- The array `promises`: `resources.map` run left to right from a given `seen` set. -/
def preloadPromises (timeout : Nat) (ev : String → Option Nat) :
    List String → List Resource → List Pending
  | _, [] => []
  | seen, r :: rs =>
    (preloadOne timeout ev seen r).2 :: preloadPromises timeout ev (preloadOne timeout ev seen r).1 rs

/-- The links `preloadResources` appends to `document.head`, in order. -/
def preloadLinks (timeout : Nat) (ev : String → Option Nat) (resources : List Resource) :
    List Link :=
  (preloadPromises timeout ev [] resources).filterMap Pending.link

/-- Resolution time of `Promise.all(promises).then(...)`: the latest settle time, and the
call time itself when `promises` is empty. -/
def preloadResources (timeout : Nat) (ev : String → Option Nat) (resources : List Resource) :
    Nat :=
  ((preloadPromises timeout ev [] resources).map Pending.settleAt).foldr max 0

/-- Number of distinct non-empty hrefs among the descriptors. -/
def distinctHrefs (resources : List Resource) : Nat :=
  ((resources.map Resource.href).filter (fun h => h ≠ "")).toFinset.card

/-- Descriptors in which a stylesheet tag and a script tag share one URL, which a third
tag repeats, next to a font preconnect. -/
def sharedUrlResources : List Resource :=
  [⟨"https://amevrynx.github.io/app", Role.style⟩,
   ⟨"https://amevrynx.github.io/app", Role.script⟩,
   ⟨"https://fonts.googleapis.com", Role.preconnect⟩,
   ⟨"https://amevrynx.github.io/app", Role.style⟩]

/-! ## Loader gate (the `DOMContentLoaded` handler) -/

/-- Timers of the loader gate: `safety` is the deadline of `_safetyTimer` while it has not
been cleared, `hideTimers` the deadlines of the 200 ms hide timers.  Every timer listed
here calls `hideLoader` at its deadline. -/
structure Gate where
  safety : Option Nat
  hideTimers : List Nat
  deriving DecidableEq, Repr

/-- The feature initialisers called by both callbacks, in call order. -/
def initialisers : List String :=
  ["initTheme", "loadGitHubRepos", "initializeMatrixBackground", "loadCertifications",
   "loadEducation", "loadSkills", "initSectionObserver"]

/-- Effect of `clearTimeout(_safetyTimer)` at time `now`: a timer that already ran is
not undone. -/
def clearSafety (now : Nat) (g : Gate) : Gate :=
  match g.safety with
  | some d => if now < d then { g with safety := none } else g
  | none => g

/-- The statement sequence shared by the `then` and the `catch` callback, run at time
`now`.  `throws f` says whether initialiser `f` throws; the first throw aborts the
callback before `clearTimeout` and `setTimeout` are reached. -/
def runInit (now : Nat) (throws : String → Bool) (g : Gate) : Run Gate :=
  if initialisers.any throws then ⟨g, true⟩
  else ⟨{ clearSafety now g with hideTimers := g.hideTimers ++ [now + 200] }, false⟩

/-- Embedding of the `DOMContentLoaded` handler, page-ready being time 0: arm the safety
timer, wait for `preloadResources(6000)`, run the `then` callback, and the `catch`
callback if that one threw. -/
def onDOMContentLoaded (resources : List Resource) (ev : String → Option Nat)
    (throwsThen throwsCatch : String → Bool) : Gate :=
  let g0 : Gate := { safety := some 8000, hideTimers := [] }
  let t := preloadResources 6000 ev resources
  let r := runInit t throwsThen g0
  if r.raised then (runInit t throwsCatch r.state).state else r.state

/-- Times at which `hideLoader` is invoked. -/
def hideLoaderCalls (g : Gate) : List Nat :=
  g.safety.toList ++ g.hideTimers

/-! ## Content loaders -/

/-- The fields of a repository object the page reads. -/
structure Repo where
  name : String
  description : Option String
  language : Option String
  stargazers_count : Nat
  html_url : String
  fork : Bool
  deriving DecidableEq, Repr

/-- The comparator handed to `sort`: `(a, b) => b.stargazers_count - a.stargazers_count`. -/
def starCompare (a b : Repo) : Int :=
  (b.stargazers_count : Int) - (a.stargazers_count : Int)

/-- The order `Array.prototype.sort` establishes for a comparator: `a` may stand before
`b` when the comparator does not return a positive number. -/
def sortsBefore (a b : Repo) : Prop := starCompare a b ≤ 0

instance sortsBeforeDecidable : DecidableRel sortsBefore :=
  fun a b => inferInstanceAs (Decidable (starCompare a b ≤ 0))

/-- The non-forked repositories in sorted order, before the `slice`.  `sort` is stable, so
it is modelled by a stable insertion sort. -/
def rankedRepos (repos : List Repo) : List Repo :=
  (repos.filter (fun repo => !repo.fork)).insertionSort sortsBefore

/-- The list `sortedRepos` of `loadGitHubRepos`: `filter`, `sort`, `slice(0, 6)`. -/
def sortedRepos (repos : List Repo) : List Repo :=
  (rankedRepos repos).take 6

/-- The non-forked repositories cut off by `slice(0, 6)`. -/
def leftOutRepos (repos : List Repo) : List Repo :=
  (rankedRepos repos).drop 6

/-- A fetched list of eight repositories, one of them a fork. -/
def sampleRepos : List Repo :=
  [⟨"dotfiles", none, some "Shell", 2, "https://github.com/amevrynx/dotfiles", false⟩,
   ⟨"linux", some "fork of the kernel", some "C", 900, "https://github.com/amevrynx/linux", true⟩,
   ⟨"portfolio", some "this page", some "HTML", 5, "https://github.com/amevrynx/portfolio", false⟩,
   ⟨"notes", some "", none, 0, "https://github.com/amevrynx/notes", false⟩,
   ⟨"todo-app", none, some "Kotlin", 3, "https://github.com/amevrynx/todo-app", false⟩,
   ⟨"scripts", none, some "Python", 2, "https://github.com/amevrynx/scripts", false⟩,
   ⟨"wallpapers", none, none, 7, "https://github.com/amevrynx/wallpapers", false⟩,
   ⟨"api-demo", none, some "JavaScript", 1, "https://github.com/amevrynx/api-demo", false⟩]

/-- A populated clone of the repository template. -/
structure RepoCard where
  title : String
  description : String
  language : String
  stars : Nat
  link : String
  deriving DecidableEq, Repr

/-- The value of `x || fallback` for a string field that may be `null`. -/
def orElse (x : Option String) (fallback : String) : String :=
  match x with
  | some v => if v = "" then fallback else v
  | none => fallback

/-- The card rendered for one repository. -/
def repoCard (repo : Repo) : RepoCard :=
  { title := repo.name,
    description := orElse repo.description "No description available",
    language := orElse repo.language "N/A",
    stars := repo.stargazers_count,
    link := repo.html_url }

/-- One certification entry and the clone rendered for it. -/
structure Certification where
  title : String
  issuer : String
  date : String
  description : String
  deriving DecidableEq, Repr

/-- The text fields of a populated certification clone. -/
def certificationCard (c : Certification) : Certification :=
  { title := c.title, issuer := "Issuer: " ++ c.issuer, date := "Date: " ++ c.date,
    description := c.description }

/-- One education entry; its clone carries the same three texts. -/
structure Education where
  degree : String
  institution : String
  description : String
  deriving DecidableEq, Repr

/-- One item of a skill group. -/
structure SkillItem where
  name : String
  logo : String
  deriving DecidableEq, Repr

/-- One skill group. -/
structure Skill where
  category : String
  items : List SkillItem
  deriving DecidableEq, Repr

/-- A populated clone of the skills template: the category and one `(src, alt, text)`
list item per skill. -/
structure SkillCard where
  category : String
  entries : List (String × String × String)
  deriving DecidableEq, Repr

/-- The clone rendered for one skill group. -/
def skillCard (sk : Skill) : SkillCard :=
  { category := sk.category,
    entries := sk.items.map (fun it => (it.logo, it.name ++ " logo", it.name)) }

/-- The part of the document the four loaders touch.  `spinners` holds the `innerHTML`
of the `.loading-spinner` elements in document order (`querySelector` returns the
first); each container is the list of clones appended to it, `none` when the element is
missing; the `...Template` flags say whether the template element exists; `console`
collects the `console.error` lines. -/
structure Dom where
  spinners : List String
  repoTemplate : Bool
  githubRepos : Option (List RepoCard)
  certificationTemplate : Bool
  certifications : Option (List Certification)
  educationTemplate : Bool
  education : Option (List Education)
  skillsTemplate : Bool
  skills : Option (List SkillCard)
  console : List String
  deriving DecidableEq, Repr

/-- How a `fetch` followed by `response.json()` ends: the request rejects, the body is
not JSON, or the parsed payload arrives. -/
inductive Fetched (α : Type) where
  | rejected
  | parseError
  | ok (data : α)
  deriving DecidableEq, Repr

/-- The markup written into the spinner by the `catch` block of `loadGitHubRepos`. -/
def repoErrorHtml : String :=
  "\n            <p class=\"text-red-500\">Error loading repositories. Please try again later or try refreshing the page !!</p>\n        "

/-- The `catch` block of `loadGitHubRepos`: log, then write the error markup into the
first spinner; without a spinner the assignment throws and the returned promise rejects. -/
def repoCatch (d : Dom) : Run Dom :=
  let d1 := { d with console := d.console ++ ["Error fetching GitHub repos:"] }
  match d1.spinners with
  | [] => ⟨d1, true⟩
  | _ :: rest => ⟨{ d1 with spinners := repoErrorHtml :: rest }, false⟩

/-- Embedding of `loadGitHubRepos()`; `raised` says that the returned promise rejects. -/
def loadGitHubRepos (resp : Fetched (List Repo)) (d : Dom) : Run Dom :=
  match resp with
  | .rejected => repoCatch d
  | .parseError => repoCatch d
  | .ok repos =>
    match d.spinners with
    | [] => repoCatch d
    | _ :: rest =>
      let d1 := { d with spinners := rest }
      match sortedRepos repos with
      | [] => ⟨d1, false⟩
      | r :: rs =>
        if d1.repoTemplate then
          match d1.githubRepos with
          | some cards => ⟨{ d1 with githubRepos := some (cards ++ (r :: rs).map repoCard) }, false⟩
          | none => repoCatch d1
        else repoCatch d1

/-- The shared shape of the three static loaders: `fetch(...).then(json).then(render)
.catch(log)`.  `render` returns `none` when rendering throws. -/
def loadStatic {α : Type} (msg : String) (render : List α → Dom → Option Dom)
    (resp : Fetched (List α)) (d : Dom) : Run Dom :=
  let logged : Dom := { d with console := d.console ++ [msg] }
  match resp with
  | .rejected => ⟨logged, false⟩
  | .parseError => ⟨logged, false⟩
  | .ok items =>
    match render items d with
    | some d1 => ⟨d1, false⟩
    | none => ⟨logged, false⟩

/-- The render callback of `loadCertifications`. -/
def renderCertifications (items : List Certification) (d : Dom) : Option Dom :=
  match items with
  | [] => some d
  | _ :: _ =>
    if d.certificationTemplate then
      d.certifications.map (fun cs =>
        { d with certifications := some (cs ++ items.map certificationCard) })
    else none

/-- The render callback of `loadEducation`. -/
def renderEducation (items : List Education) (d : Dom) : Option Dom :=
  match items with
  | [] => some d
  | _ :: _ =>
    if d.educationTemplate then
      d.education.map (fun es => { d with education := some (es ++ items) })
    else none

/-- The render callback of `loadSkills`. -/
def renderSkills (items : List Skill) (d : Dom) : Option Dom :=
  match items with
  | [] => some d
  | _ :: _ =>
    if d.skillsTemplate then
      d.skills.map (fun ss => { d with skills := some (ss ++ items.map skillCard) })
    else none

/-- Embedding of `loadCertifications()`, as the document once its promise chain settled. -/
def loadCertifications (resp : Fetched (List Certification)) (d : Dom) : Run Dom :=
  loadStatic "Error loading certifications:" renderCertifications resp d

/-- Embedding of `loadEducation()`, as the document once its promise chain settled. -/
def loadEducation (resp : Fetched (List Education)) (d : Dom) : Run Dom :=
  loadStatic "Error loading education data:" renderEducation resp d

/-- Embedding of `loadSkills()`, as the document once its promise chain settled. -/
def loadSkills (resp : Fetched (List Skill)) (d : Dom) : Run Dom :=
  loadStatic "Error loading skills data:" renderSkills resp d

/-- The two ways a fetch fails: `parseError` when `parse` is set, `rejected` otherwise. -/
def failedFetch {α : Type} (parse : Bool) : Fetched α :=
  if parse then Fetched.parseError else Fetched.rejected

/-- What a visitor can see of the document: everything but the console. -/
def visible (d : Dom) : Dom := { d with console := [] }

/-- A page with one spinner, all templates and empty containers. -/
def samplePage : Dom :=
  { spinners := ["Loading repositories..."], repoTemplate := true, githubRepos := some [],
    certificationTemplate := true, certifications := some [],
    educationTemplate := true, education := some [],
    skillsTemplate := true, skills := some [], console := [] }

/-! ## Matrix background (`resizeCanvas`) -/

/-- The fixed character cell size. -/
def fontSize : Nat := 16

/-- The variables `resizeCanvas` closes over.  `drops` is a JavaScript array: an entry
is `none` where the array has a hole. -/
structure Matrix where
  width : Nat
  height : Nat
  drops : List (Option Nat)
  columns : Nat
  deriving DecidableEq, Repr

/-- The state set up by `initializeMatrixBackground` before the first `resizeCanvas()`. -/
def Matrix.initial : Matrix :=
  { width := 0, height := 0, drops := [], columns := 0 }

/-- Effect of the assignment `drops[i] = v` on the array. -/
def assignAt (drops : List (Option Nat)) (i v : Nat) : List (Option Nat) :=
  if i < drops.length then drops.set i (some v)
  else drops ++ List.replicate (i - drops.length) none ++ [some v]

/-- Effect of `drops.length = n`. -/
def setLength (drops : List (Option Nat)) (n : Nat) : List (Option Nat) :=
  drops.take n ++ List.replicate (n - drops.length) none

/-- The loop `for (let i = columns; i < newColumns; i++) drops[i] = ...`, where `rnd i`
is the number `Math.floor(Math.random() * canvas.height / fontSize)` yields for column `i`. -/
def fillDrops (rnd : Nat → Nat) (columns newColumns : Nat) (drops : List (Option Nat)) :
    List (Option Nat) :=
  (List.range' columns (newColumns - columns)).foldl (fun acc i => assignAt acc i (rnd i)) drops

/-- Embedding of `resizeCanvas()` for a window of `innerWidth` by `innerHeight`. -/
def resizeCanvas (innerWidth innerHeight : Nat) (rnd : Nat → Nat) (m : Matrix) : Matrix :=
  let newColumns := if innerWidth / fontSize = 0 then 1 else innerWidth / fontSize
  let drops :=
    if newColumns > m.columns then fillDrops rnd m.columns newColumns m.drops
    else if newColumns < m.columns then setLength m.drops newColumns
    else m.drops
  { width := innerWidth, height := innerHeight, drops := drops, columns := newColumns }

/-! ## Section observer (`initSectionObserver`) -/

/-- State of the navigation highlighter.  `listeners` has one entry per registered
`resize` listener: the deadline of its pending `resizeTimer`, `none` when no timer is
pending.  `observer` says whether `_sectionObserver` is set, `connected` counts the
observers currently observing sections, and `runs` logs the times at which
`initSectionObserver` ran. -/
structure Spy where
  listeners : List (Option Nat)
  observer : Bool
  connected : Nat
  runs : List Nat
  deriving DecidableEq, Repr

/-- The state before the first call. -/
def Spy.initial : Spy :=
  { listeners := [], observer := false, connected := 0, runs := [] }

/-- Embedding of `initSectionObserver()` run at time `now`: disconnect the current
observer, create and subscribe a new one, register one more `resize` listener. -/
def initSectionObserver (now : Nat) (s : Spy) : Spy :=
  let s1 := if s.observer then { s with connected := s.connected - 1, observer := false } else s
  { listeners := s1.listeners ++ [none], observer := true, connected := s1.connected + 1,
    runs := s1.runs ++ [now] }

/-- A `resize` event at time `t`: every registered listener clears its pending timer and
sets a new one for `t + 250`. -/
def onResize (t : Nat) (s : Spy) : Spy :=
  { s with listeners := s.listeners.map (fun _ => some (t + 250)) }

/-- The pending timers with deadline up to `t`, in listener order. -/
def dueTimers (t : Nat) (s : Spy) : List Nat :=
  s.listeners.filterMap (fun o => o.bind (fun d => if d ≤ t then some d else none))

/-- Let the clock reach `t`: every timer due by then runs its callback, which calls
`initSectionObserver` at the timer deadline. -/
def advanceTo (t : Nat) (s : Spy) : Spy :=
  let due := dueTimers t s
  let pending := s.listeners.map (fun o => o.bind (fun d => if d ≤ t then none else some d))
  let cleared : Spy := { s with listeners := pending }
  due.foldl (fun acc d => initSectionObserver d acc) cleared

/-- Run the page through the `resize` events at the given (non-decreasing) times. -/
def resizeAll : List Nat → Spy → Spy
  | [], s => s
  | t :: ts, s => resizeAll ts (onResize t (advanceTo t s))

/-- The highlighter from page start: the first `initSectionObserver()` at time `start`,
the `resize` events, then the clock running on until `horizon`. -/
def runSpy (start : Nat) (events : List Nat) (horizon : Nat) : Spy :=
  advanceTo horizon (resizeAll events (initSectionObserver start Spy.initial))

/-- Times of the re-runs of `initSectionObserver` that fall in the window `(lo, hi]`. -/
def rerunsBetween (lo hi : Nat) (s : Spy) : List Nat :=
  s.runs.filter (fun t => decide (lo < t) && decide (t ≤ hi))

/-! # Theorems -/

/-! ## Theme store: lemmas -/

theorem mem_addToken (cl : List String) (tok x : String) :
    x ∈ addToken cl tok ↔ x ∈ cl ∨ x = tok := by
  unfold addToken
  split
  · constructor
    · intro h; exact Or.inl h
    · rintro (h | h)
      · exact h
      · subst h; assumption
  · simp

theorem mem_removeThemeClasses (cl : List String) (x : String) :
    x ∈ removeThemeClasses cl ↔ x ∈ cl ∧ x ≠ "theme-light" ∧ x ≠ "theme-dark" := by
  simp [removeThemeClasses]

theorem applyTheme_dark (s : ThemeState) :
    applyTheme "dark" s =
      ⟨{ s with classList := addToken (removeThemeClasses s.classList) "theme-dark",
                toggleBtn := s.toggleBtn.map (fun _ => moonIcon) }, false⟩ := by
  have h1 : ("dark".data.any isAsciiWhitespace) = false := by decide
  have h2 : ("theme-" ++ "dark" : String) = "theme-dark" := by decide
  have h3 : ¬ ("dark" = "light") := by decide
  simp [applyTheme, h1, h2, h3]

theorem applyTheme_light (s : ThemeState) :
    applyTheme "light" s =
      ⟨{ s with classList := addToken (removeThemeClasses s.classList) "theme-light",
                toggleBtn := s.toggleBtn.map (fun _ => sunIcon) }, false⟩ := by
  have h1 : ("light".data.any isAsciiWhitespace) = false := by decide
  have h2 : ("theme-" ++ "light" : String) = "theme-light" := by decide
  simp [applyTheme, h1, h2]

theorem activeMode_dark (s : ThemeState) (cl : List String)
    (h : s.classList = addToken (removeThemeClasses cl) "theme-dark") :
    activeMode s = some "dark" := by
  have hd : "theme-dark" ∈ s.classList := by
    rw [h, mem_addToken]; exact Or.inr rfl
  have hl : "theme-light" ∉ s.classList := by
    rw [h, mem_addToken, mem_removeThemeClasses]
    rintro (⟨_, h1, _⟩ | h1)
    · exact h1 rfl
    · exact absurd h1 (by decide)
  simp [activeMode, hd, hl]

theorem activeMode_light (s : ThemeState) (cl : List String)
    (h : s.classList = addToken (removeThemeClasses cl) "theme-light") :
    activeMode s = some "light" := by
  have hl : "theme-light" ∈ s.classList := by
    rw [h, mem_addToken]; exact Or.inr rfl
  have hd : "theme-dark" ∉ s.classList := by
    rw [h, mem_addToken, mem_removeThemeClasses]
    rintro (⟨_, _, h1⟩ | h1)
    · exact h1 rfl
    · exact absurd h1 (by decide)
  simp [activeMode, hd, hl]

theorem activeMode_cases (s : ThemeState) (m : String) (h : activeMode s = some m) :
    (m = "dark" ∧ "theme-dark" ∈ s.classList) ∨ (m = "light" ∧ "theme-dark" ∉ s.classList) := by
  unfold activeMode at h
  by_cases hd : "theme-dark" ∈ s.classList <;> by_cases hl : "theme-light" ∈ s.classList <;>
    simp [hd, hl] at h
  · exact Or.inl ⟨h.symm, hd⟩
  · exact Or.inr ⟨h.symm, hd⟩

/-- One `toggleTheme` with working storage from a dark page. -/
theorem toggleTheme_of_dark (s : ThemeState) (hset : s.setItemRaises = false)
    (hd : "theme-dark" ∈ s.classList) :
    (toggleTheme s).raised = false ∧ activeMode (toggleTheme s).state = some "light" ∧
      (toggleTheme s).state.stored = some "light" ∧
      (toggleTheme s).state.setItemRaises = false ∧
      (toggleTheme s).state.dispatched = s.dispatched ++ ["themechange"] := by
  have e : toggleTheme s =
      ⟨{ s with classList := addToken (removeThemeClasses s.classList) "theme-light",
                toggleBtn := s.toggleBtn.map (fun _ => sunIcon),
                stored := some "light",
                dispatched := s.dispatched ++ ["themechange"] }, false⟩ := by
    simp [toggleTheme, hd, applyTheme_light, hset]
  rw [e]
  exact ⟨rfl, activeMode_light _ s.classList rfl, rfl, hset, rfl⟩

/-- One `toggleTheme` with working storage from a page that is not dark. -/
theorem toggleTheme_of_not_dark (s : ThemeState) (hset : s.setItemRaises = false)
    (hd : "theme-dark" ∉ s.classList) :
    (toggleTheme s).raised = false ∧ activeMode (toggleTheme s).state = some "dark" ∧
      (toggleTheme s).state.stored = some "dark" ∧
      (toggleTheme s).state.setItemRaises = false ∧
      (toggleTheme s).state.dispatched = s.dispatched ++ ["themechange"] := by
  have e : toggleTheme s =
      ⟨{ s with classList := addToken (removeThemeClasses s.classList) "theme-dark",
                toggleBtn := s.toggleBtn.map (fun _ => moonIcon),
                stored := some "dark",
                dispatched := s.dispatched ++ ["themechange"] }, false⟩ := by
    simp [toggleTheme, hd, applyTheme_dark, hset]
  rw [e]
  exact ⟨rfl, activeMode_dark _ s.classList rfl, rfl, hset, rfl⟩

theorem opposite_dark : opposite "dark" = "light" := by decide

theorem opposite_light : opposite "light" = "dark" := by decide

/-- With working storage, from a page whose stored preference already equals its mode,
every number of toggles keeps the two equal and flips the mode each time. -/
theorem toggleN_synced (N : Nat) : ∀ (s : ThemeState) (m : String), activeMode s = some m →
    s.setItemRaises = false → s.stored = some m →
    activeMode (toggleN N s) = some (if N % 2 = 0 then m else opposite m) ∧
      (toggleN N s).stored = activeMode (toggleN N s) := by
  induction N with
  | zero =>
    intro s m hm _ hst
    simp [toggleN, hm, hst]
  | succ n ih =>
    intro s m hm hset _
    rcases activeMode_cases s m hm with ⟨rfl, hd⟩ | ⟨rfl, hd⟩
    · obtain ⟨_, h2, h3, h4, _⟩ := toggleTheme_of_dark s hset hd
      obtain ⟨i1, i2⟩ := ih (toggleTheme s).state "light" h2 h4 h3
      refine ⟨?_, i2⟩
      show activeMode (toggleN n (toggleTheme s).state) = _
      rw [i1, opposite_light, opposite_dark]
      rcases Nat.mod_two_eq_zero_or_one n with h | h <;> simp [Nat.succ_mod_two_eq_zero_iff, h]
    · obtain ⟨_, h2, h3, h4, _⟩ := toggleTheme_of_not_dark s hset hd
      obtain ⟨i1, i2⟩ := ih (toggleTheme s).state "dark" h2 h4 h3
      refine ⟨?_, i2⟩
      show activeMode (toggleN n (toggleTheme s).state) = _
      rw [i1, opposite_light, opposite_dark]
      rcases Nat.mod_two_eq_zero_or_one n with h | h <;> simp [Nat.succ_mod_two_eq_zero_iff, h]

/-- C4 (amended): with working storage, from any page showing mode `m`, after `N` calls of
`toggleTheme` the active mode is `m` for even `N` and the opposite mode for odd `N`; after
at least one toggle the value stored under `themePreference` equals the active mode, and
it does so from the start when the stored value already agreed with the initial mode. -/
theorem toggleTheme_parity_persistence (s0 : ThemeState) (m : String)
    (hm : activeMode s0 = some m) (hset : s0.setItemRaises = false) (N : Nat) :
    activeMode (toggleN N s0) = some (if N % 2 = 0 then m else opposite m) ∧
      (0 < N → (toggleN N s0).stored = activeMode (toggleN N s0)) ∧
      (s0.stored = some m → (toggleN N s0).stored = activeMode (toggleN N s0)) := by
  refine ⟨?_, ?_, fun hst => (toggleN_synced N s0 m hm hset hst).2⟩
  · cases N with
    | zero => simpa [toggleN] using hm
    | succ n =>
      show activeMode (toggleN n (toggleTheme s0).state) = _
      rcases activeMode_cases s0 m hm with ⟨rfl, hd⟩ | ⟨rfl, hd⟩
      · obtain ⟨_, h2, h3, h4, _⟩ := toggleTheme_of_dark s0 hset hd
        rw [(toggleN_synced n _ "light" h2 h4 h3).1, opposite_light, opposite_dark]
        rcases Nat.mod_two_eq_zero_or_one n with h | h <;> simp [Nat.succ_mod_two_eq_zero_iff, h]
      · obtain ⟨_, h2, h3, h4, _⟩ := toggleTheme_of_not_dark s0 hset hd
        rw [(toggleN_synced n _ "dark" h2 h4 h3).1, opposite_light, opposite_dark]
        rcases Nat.mod_two_eq_zero_or_one n with h | h <;> simp [Nat.succ_mod_two_eq_zero_iff, h]
  · intro hN
    obtain ⟨n, rfl⟩ := Nat.exists_eq_succ_of_ne_zero (Nat.pos_iff_ne_zero.mp hN)
    show (toggleN n (toggleTheme s0).state).stored = activeMode (toggleN n (toggleTheme s0).state)
    rcases activeMode_cases s0 m hm with ⟨rfl, hd⟩ | ⟨rfl, hd⟩
    · obtain ⟨_, h2, h3, h4, _⟩ := toggleTheme_of_dark s0 hset hd
      exact (toggleN_synced n _ "light" h2 h4 h3).2
    · obtain ⟨_, h2, h3, h4, _⟩ := toggleTheme_of_not_dark s0 hset hd
      exact (toggleN_synced n _ "dark" h2 h4 h3).2

/-- Witness for C4: three toggles from the page `initTheme` leaves behind on a fresh
profile with no light-scheme hint. -/
theorem toggleTheme_parity_persistence_witness :
    activeMode startedPage = some "dark" ∧ startedPage.setItemRaises = false ∧
      activeMode (toggleN 3 startedPage) = some (if 3 % 2 = 0 then "dark" else opposite "dark") ∧
      (0 < 3 → (toggleN 3 startedPage).stored = activeMode (toggleN 3 startedPage)) ∧
      (startedPage.stored = some "dark" →
        (toggleN 3 startedPage).stored = activeMode (toggleN 3 startedPage)) :=
  ⟨by decide, by decide,
    toggleTheme_parity_persistence startedPage "dark" (by decide) (by decide) 3⟩

/-- Counterexample to C4 as stated: before the first toggle, on a fresh profile,
`initTheme` has applied the dark mode but nothing is stored under `themePreference`. -/
theorem persisted_differs_before_first_toggle :
    activeMode (toggleN 0 startedPage) = some "dark" ∧ (toggleN 0 startedPage).stored = none ∧
      (toggleN 0 startedPage).stored ≠ activeMode (toggleN 0 startedPage) := by
  decide

/-- C5 (amended): with readable storage, `initTheme` applies a stored non-empty value
that contains no ASCII whitespace as it stands (the class `theme-<value>`, whatever the
value); with nothing or the empty string stored it applies light when the platform reports
a light-scheme preference and dark otherwise; when the stored value is light or dark the
active mode is that value; and a stored value that contains ASCII whitespace makes
`initTheme` raise after the theme classes were removed, so that no theme is applied. -/
theorem initTheme_applies (s : ThemeState) (matchMedia : Option Bool)
    (hget : s.getItemRaises = false) :
    (∀ v, s.stored = some v → v ≠ "" → v.data.any isAsciiWhitespace = false →
        (initTheme matchMedia s).raised = false ∧
        (initTheme matchMedia s).state.classList =
          addToken (removeThemeClasses s.classList) ("theme-" ++ v)) ∧
      (s.stored = none ∨ s.stored = some "" →
        (initTheme matchMedia s).raised = false ∧
        activeMode (initTheme matchMedia s).state =
          some (if matchMedia = some true then "light" else "dark")) ∧
      (∀ v, s.stored = some v → v = "light" ∨ v = "dark" →
        (initTheme matchMedia s).raised = false ∧
        activeMode (initTheme matchMedia s).state = some v) ∧
      (∀ v, s.stored = some v → v.data.any isAsciiWhitespace = true →
        (initTheme matchMedia s).raised = true ∧
        (initTheme matchMedia s).state.classList = removeThemeClasses s.classList ∧
        activeMode (initTheme matchMedia s).state = none) := by
  refine ⟨?_, ?_, ?_, ?_⟩
  · intro v hv hne hws
    simp [initTheme, hget, chosenTheme, hv, hne, applyTheme, hws]
  · intro h
    have hc : chosenTheme s.stored matchMedia =
        if matchMedia = some true then "light" else "dark" := by
      rcases h with h | h <;> rcases matchMedia with _ | _ | _ <;> simp [chosenTheme, h]
    simp only [initTheme, hget, hc]
    by_cases hm : matchMedia = some true
    · simp only [hm, if_true, applyTheme_light]
      exact ⟨by simp, activeMode_light _ s.classList rfl⟩
    · simp only [hm, if_false, applyTheme_dark]
      exact ⟨by simp, activeMode_dark _ s.classList rfl⟩
  · intro v hv hld
    rcases hld with rfl | rfl
    · have hc : chosenTheme s.stored matchMedia = "light" := by
        simp [chosenTheme, hv]
      simp only [initTheme, hget, hc, applyTheme_light]
      exact ⟨by simp, activeMode_light _ s.classList rfl⟩
    · have hc : chosenTheme s.stored matchMedia = "dark" := by
        simp [chosenTheme, hv]
      simp only [initTheme, hget, hc, applyTheme_dark]
      exact ⟨by simp, activeMode_dark _ s.classList rfl⟩
  · intro v hv hws
    have hne : v ≠ "" := by
      rintro rfl
      exact absurd hws (by decide)
    have hc : chosenTheme s.stored matchMedia = v := by
      simp [chosenTheme, hv, hne]
    have e : initTheme matchMedia s =
        ⟨{ s with classList := removeThemeClasses s.classList }, true⟩ := by
      simp [initTheme, hget, hc, applyTheme, hws]
    rw [e]
    refine ⟨rfl, rfl, ?_⟩
    have hd : "theme-dark" ∉ removeThemeClasses s.classList := by
      rw [mem_removeThemeClasses]; exact fun h => h.2.2 rfl
    have hl : "theme-light" ∉ removeThemeClasses s.classList := by
      rw [mem_removeThemeClasses]; exact fun h => h.2.1 rfl
    simp [activeMode, hd, hl]

/-- Witness for C5: a profile that stored `light`, on a platform without a hint, and a
profile that stored `my theme` on a page showing the dark mode. -/
theorem initTheme_applies_witness :
    lightStoredPage.getItemRaises = false ∧
      ((initTheme none lightStoredPage).raised = false ∧
        activeMode (initTheme none lightStoredPage).state = some "light") ∧
      spacedStoredPage.getItemRaises = false ∧
      ((initTheme none spacedStoredPage).raised = true ∧
        (initTheme none spacedStoredPage).state.classList =
          removeThemeClasses spacedStoredPage.classList ∧
        activeMode (initTheme none spacedStoredPage).state = none) :=
  ⟨by decide, (initTheme_applies lightStoredPage none (by decide)).2.2.1 "light"
    (by decide) (Or.inl rfl), by decide,
    (initTheme_applies spacedStoredPage none (by decide)).2.2.2 "my theme"
      (by decide) (by decide)⟩

/-- Counterexample to C5 as stated: a stored value other than light or dark is applied
as it stands, so the applied theme is neither light nor dark. -/
theorem initTheme_applies_foreign_value :
    (initTheme (some true) blueStoredPage).raised = false ∧
      (initTheme (some true) blueStoredPage).state.classList = ["theme-blue"] ∧
      activeMode (initTheme (some true) blueStoredPage).state = none := by
  decide

/-- C6 (amended): when reading the preference raises, `initTheme` raises and leaves the
page as it was, applying no theme; when writing the preference raises, `toggleTheme`
applies the flipped mode and then raises, storing nothing and emitting no notification. -/
theorem storage_unavailable_raises (s : ThemeState) (matchMedia : Option Bool) :
    (s.getItemRaises = true → initTheme matchMedia s = ⟨s, true⟩) ∧
      (s.setItemRaises = true →
        (toggleTheme s).raised = true ∧
        activeMode (toggleTheme s).state =
          some (if "theme-dark" ∈ s.classList then "light" else "dark") ∧
        (toggleTheme s).state.stored = s.stored ∧
        (toggleTheme s).state.dispatched = s.dispatched) := by
  constructor
  · intro h
    simp [initTheme, h]
  · intro h
    by_cases hd : "theme-dark" ∈ s.classList
    · have e : toggleTheme s =
          ⟨{ s with classList := addToken (removeThemeClasses s.classList) "theme-light",
                    toggleBtn := s.toggleBtn.map (fun _ => sunIcon) }, true⟩ := by
        simp [toggleTheme, hd, applyTheme_light, h]
      rw [e, if_pos hd]
      exact ⟨rfl, activeMode_light _ s.classList rfl, rfl, rfl⟩
    · have e : toggleTheme s =
          ⟨{ s with classList := addToken (removeThemeClasses s.classList) "theme-dark",
                    toggleBtn := s.toggleBtn.map (fun _ => moonIcon) }, true⟩ := by
        simp [toggleTheme, hd, applyTheme_dark, h]
      rw [e, if_neg hd]
      exact ⟨rfl, activeMode_dark _ s.classList rfl, rfl, rfl⟩

/-- Witness for C6: the page whose storage raises on every access. -/
theorem storage_unavailable_raises_witness :
    blockedPage.getItemRaises = true ∧ blockedPage.setItemRaises = true ∧
      initTheme (some true) blockedPage = ⟨blockedPage, true⟩ ∧
      (toggleTheme blockedPage).raised = true ∧
      (toggleTheme blockedPage).state.dispatched = blockedPage.dispatched :=
  ⟨by decide, by decide,
    (storage_unavailable_raises blockedPage (some true)).1 (by decide),
    ((storage_unavailable_raises blockedPage (some true)).2 (by decide)).1,
    ((storage_unavailable_raises blockedPage (some true)).2 (by decide)).2.2.2⟩

/-- Counterexample to C6 as stated: with storage unavailable `initTheme` raises without
applying the light theme the platform asks for, and `toggleTheme` raises without
emitting `themechange`. -/
theorem storage_unavailable_not_tolerated :
    (initTheme (some true) blockedPage).raised = true ∧
      activeMode (initTheme (some true) blockedPage).state ≠ some "light" ∧
      (toggleTheme blockedPage).raised = true ∧
      (toggleTheme blockedPage).state.dispatched = [] := by
  decide

/-! ## Resource preloader and loader gate: theorems -/

theorem preloadOne_skip (timeout : Nat) (ev : String → Option Nat) (seen : List String)
    (r : Resource) (h : r.href = "" ∨ r.href ∈ seen) :
    preloadOne timeout ev seen r = (seen, ⟨none, 0⟩) := by
  unfold preloadOne
  rcases h with h | h
  · simp [h]
  · simp [h]

theorem preloadOne_fresh (timeout : Nat) (ev : String → Option Nat) (seen : List String)
    (r : Resource) (h1 : r.href ≠ "") (h2 : r.href ∉ seen) :
    (preloadOne timeout ev seen r).1 = r.href :: seen ∧
      ∃ l, (preloadOne timeout ev seen r).2.link = some l ∧ l.href = r.href := by
  unfold preloadOne
  by_cases hp : r.as = Role.preconnect
  · simp [h1, h2, hp]
  · simp [h1, h2, hp]

/-- Links appended from a given `seen` set: one per distinct non-empty href not yet seen. -/
theorem preloadPromises_links_card (timeout : Nat) (ev : String → Option Nat)
    (rs : List Resource) : ∀ seen : List String,
    ((preloadPromises timeout ev seen rs).filterMap Pending.link).length =
      ((rs.map Resource.href).filter (fun h => h ≠ "" ∧ h ∉ seen)).toFinset.card := by
  induction rs with
  | nil => intro seen; simp [preloadPromises]
  | cons r rs ih =>
    intro seen
    by_cases h : r.href = "" ∨ r.href ∈ seen
    · have hf : ¬ (r.href ≠ "" ∧ r.href ∉ seen) := by tauto
      simp only [preloadPromises, preloadOne_skip timeout ev seen r h, List.filterMap_cons_none,
        List.map_cons]
      rw [ih seen, List.filter_cons_of_neg (by simpa using hf)]
    · have h1 : r.href ≠ "" := fun e => h (Or.inl e)
      have h2 : r.href ∉ seen := fun e => h (Or.inr e)
      obtain ⟨e1, l, e2, _⟩ := preloadOne_fresh timeout ev seen r h1 h2
      simp only [preloadPromises, List.map_cons]
      rw [List.filterMap_cons_some e2, e1, List.length_cons, ih (r.href :: seen),
        List.filter_cons_of_pos (by simp [h1, h2]), List.toFinset_cons]
      have hs : ((rs.map Resource.href).filter
            (fun h => h ≠ "" ∧ h ∉ r.href :: seen)).toFinset =
          (((rs.map Resource.href).filter (fun h => h ≠ "" ∧ h ∉ seen)).toFinset).erase r.href := by
        ext x
        simp only [List.mem_toFinset, List.mem_filter, Finset.mem_erase, List.mem_cons,
          decide_eq_true_eq]
        tauto
      rw [hs, ← Finset.card_insert_of_not_mem (Finset.not_mem_erase _ _)]
      congr 1
      ext x
      simp only [Finset.mem_insert, Finset.mem_erase]
      tauto

/-- The link one descriptor appends carries that descriptor's href, which is not empty
and was not seen before, and the `rel` and `as` its role asks for. -/
theorem preloadOne_link (timeout : Nat) (ev : String → Option Nat) (seen : List String)
    (r : Resource) (l : Link) (h : (preloadOne timeout ev seen r).2.link = some l) :
    l.href = r.href ∧ r.href ≠ "" ∧ r.href ∉ seen ∧
      ((r.as = Role.preconnect ∧ l.rel = "preconnect" ∧ l.as = none) ∨
        (r.as ≠ Role.preconnect ∧ l.rel = "preload" ∧ l.as = some r.as.toString)) := by
  unfold preloadOne at h
  by_cases h1 : r.href = ""
  · simp [h1] at h
  · by_cases h2 : r.href ∈ seen
    · simp [h1, h2] at h
    · by_cases hp : r.as = Role.preconnect
      · simp only [h1, h2, hp, if_true, if_false, Option.some.injEq] at h
        subst h
        exact ⟨rfl, h1, h2, Or.inl ⟨hp, rfl, rfl⟩⟩
      · simp only [h1, h2, hp, if_false, Option.some.injEq] at h
        subst h
        exact ⟨rfl, h1, h2, Or.inr ⟨hp, rfl, rfl⟩⟩

/-- From a given `seen` set, each href is requested once when it is non-empty, unseen and
among the descriptors, and not at all otherwise. -/
theorem preloadPromises_href_count (timeout : Nat) (ev : String → Option Nat) (h : String)
    (rs : List Resource) : ∀ seen : List String,
    (((preloadPromises timeout ev seen rs).filterMap Pending.link).map Link.href).count h =
      if h ≠ "" ∧ h ∉ seen ∧ h ∈ rs.map Resource.href then 1 else 0 := by
  induction rs with
  | nil => intro seen; simp [preloadPromises]
  | cons r rs ih =>
    intro seen
    by_cases hs : r.href = "" ∨ r.href ∈ seen
    · simp only [preloadPromises, preloadOne_skip timeout ev seen r hs, List.filterMap_cons_none,
        List.map_cons, List.mem_cons]
      rw [ih seen]
      by_cases hh : h = r.href
      · have hc : ¬ (h ≠ "" ∧ h ∉ seen) := by
          rw [hh]; tauto
        rw [if_neg (fun c => hc ⟨c.1, c.2.1⟩), if_neg (fun c => hc ⟨c.1, c.2.1⟩)]
      · simp only [hh, false_or]
    · have h1 : r.href ≠ "" := fun e => hs (Or.inl e)
      have h2 : r.href ∉ seen := fun e => hs (Or.inr e)
      obtain ⟨e1, l, e2, e3⟩ := preloadOne_fresh timeout ev seen r h1 h2
      simp only [preloadPromises, List.map_cons]
      rw [List.filterMap_cons_some e2, e1, List.map_cons, e3, List.count_cons, ih (r.href :: seen)]
      by_cases hh : h = r.href
      · subst hh
        simp [h1, h2]
      · have hne : (r.href == h) = false := by
          simpa using fun e => hh e.symm
        simp [hne, hh]

/-- Every appended link comes from a descriptor with the same, non-empty href and has the
`rel` and `as` that descriptor's role asks for. -/
theorem preloadPromises_link_origin (timeout : Nat) (ev : String → Option Nat)
    (rs : List Resource) : ∀ (seen : List String) (l : Link),
    l ∈ (preloadPromises timeout ev seen rs).filterMap Pending.link →
    ∃ r ∈ rs, l.href = r.href ∧ r.href ≠ "" ∧
      ((r.as = Role.preconnect ∧ l.rel = "preconnect" ∧ l.as = none) ∨
        (r.as ≠ Role.preconnect ∧ l.rel = "preload" ∧ l.as = some r.as.toString)) := by
  induction rs with
  | nil => intro seen l hl; simp [preloadPromises] at hl
  | cons r rs ih =>
    intro seen l hl
    simp only [preloadPromises, List.mem_filterMap, List.mem_cons] at hl
    obtain ⟨p, hp | hp, hpl⟩ := hl
    · subst hp
      obtain ⟨a, b, _, c⟩ := preloadOne_link timeout ev seen r l hpl
      exact ⟨r, List.mem_cons_self _ _, a, b, c⟩
    · obtain ⟨r2, hr2, rest⟩ := ih _ l (List.mem_filterMap.2 ⟨p, hp, hpl⟩)
      exact ⟨r2, List.mem_cons_of_mem _ hr2, rest⟩

/-- C7: the number of preload/preconnect links `preloadResources` appends equals the
number of distinct non-empty hrefs among the collected descriptors, whatever their roles;
each href among the descriptors is the href of exactly one appended link when it is
non-empty, and of none otherwise; and every appended link is the preconnect or preload
link of a descriptor with that href. -/
theorem preloadLinks_length_eq_distinctHrefs (timeout : Nat) (ev : String → Option Nat)
    (resources : List Resource) :
    (preloadLinks timeout ev resources).length = distinctHrefs resources ∧
      (∀ h : String, ((preloadLinks timeout ev resources).map Link.href).count h =
        if h ≠ "" ∧ h ∈ resources.map Resource.href then 1 else 0) ∧
      (∀ l ∈ preloadLinks timeout ev resources, ∃ r ∈ resources, l.href = r.href ∧ r.href ≠ "" ∧
        ((r.as = Role.preconnect ∧ l.rel = "preconnect" ∧ l.as = none) ∨
          (r.as ≠ Role.preconnect ∧ l.rel = "preload" ∧ l.as = some r.as.toString))) := by
  refine ⟨?_, ?_, ?_⟩
  · unfold preloadLinks distinctHrefs
    rw [preloadPromises_links_card]
    simp
  · intro h
    unfold preloadLinks
    rw [preloadPromises_href_count]
    simp
  · intro l hl
    exact preloadPromises_link_origin timeout ev resources [] l hl

/-- Witness for C7: a stylesheet and a script tag with the same URL, a font preconnect and
the same stylesheet again produce two links, one preload of the shared URL and one
preconnect. -/
theorem preloadLinks_length_eq_distinctHrefs_witness :
    preloadLinks 6000 (fun _ => none) sharedUrlResources =
        [⟨"preload", some "style", "https://amevrynx.github.io/app", none⟩,
         ⟨"preconnect", none, "https://fonts.googleapis.com", some ""⟩] ∧
      (preloadLinks 6000 (fun _ => none) sharedUrlResources).length =
        distinctHrefs sharedUrlResources ∧
      ((preloadLinks 6000 (fun _ => none) sharedUrlResources).map Link.href).count
          "https://amevrynx.github.io/app" = 1 :=
  ⟨by decide, (preloadLinks_length_eq_distinctHrefs 6000 (fun _ => none) sharedUrlResources).1,
    by
      have h := (preloadLinks_length_eq_distinctHrefs 6000 (fun _ => none)
        sharedUrlResources).2.1 "https://amevrynx.github.io/app"
      rw [if_pos (by decide)] at h
      exact h⟩

theorem preloadOne_settle_le (timeout : Nat) (ev : String → Option Nat) (seen : List String)
    (r : Resource) :
    (preloadOne timeout ev seen r).2.settleAt ≤ max timeout PRECONNECT_DELAY := by
  unfold preloadOne
  split
  · simp
  · split
    · simp
    · split
      · simp
      · cases ev r.href with
        | none => simp
        | some t => simp only [le_max_iff]; exact Or.inl (Nat.min_le_right t timeout)

theorem preloadPromises_settle_le (timeout : Nat) (ev : String → Option Nat)
    (rs : List Resource) : ∀ seen : List String,
    ((preloadPromises timeout ev seen rs).map Pending.settleAt).foldr max 0 ≤
      max timeout PRECONNECT_DELAY := by
  induction rs with
  | nil => intro seen; simp [preloadPromises]
  | cons r rs ih =>
    intro seen
    simp only [preloadPromises, List.map_cons, List.foldr_cons]
    exact max_le (preloadOne_settle_le timeout ev seen r) (ih _)

/-- C2 (amended): for every timeout, every list of descriptors and every arrival of their
load/error events, the promise returned by `preloadResources` resolves no later than the
larger of the timeout and the fixed 50 ms preconnect delay. -/
theorem preloadResources_resolves_by (timeout : Nat) (ev : String → Option Nat)
    (resources : List Resource) :
    preloadResources timeout ev resources ≤ max timeout PRECONNECT_DELAY :=
  preloadPromises_settle_le timeout ev resources []

/-- Counterexample to C2 as stated: with a timeout of 0 ms and one preconnect descriptor
the promise resolves at 50 ms, after the timeout. -/
theorem preloadResources_after_timeout :
    preloadResources 0 (fun _ => none) [⟨"https://fonts.googleapis.com", Role.preconnect⟩] = 50 ∧
      ¬ preloadResources 0 (fun _ => none)
          [⟨"https://fonts.googleapis.com", Role.preconnect⟩] ≤ 0 := by
  decide

/-- The preload started by the handler is over by 6000 ms. -/
theorem preload_done_by_6000 (ev : String → Option Nat) (resources : List Resource) :
    preloadResources 6000 ev resources ≤ 6000 := by
  have h := preloadPromises_settle_le 6000 ev resources []
  have e : max 6000 PRECONNECT_DELAY = 6000 := by decide
  rw [e] at h
  exact h

/-- C1: in the timed model of the `DOMContentLoaded` handler, whatever the preload hints
do and whichever initialisers throw, `hideLoader` is invoked no later than 8000 ms: either
the safety timer is still armed and runs at 8000 ms, or it was cleared in the step that
set the single 200 ms hide timer, which runs before 8000 ms. -/
theorem hideLoader_within_8000 (resources : List Resource) (ev : String → Option Nat)
    (throwsThen throwsCatch : String → Bool) :
    (∃ t ∈ hideLoaderCalls (onDOMContentLoaded resources ev throwsThen throwsCatch), t ≤ 8000) ∧
      (((onDOMContentLoaded resources ev throwsThen throwsCatch).safety = some 8000 ∧
          8000 ∈ hideLoaderCalls (onDOMContentLoaded resources ev throwsThen throwsCatch)) ∨
        ((onDOMContentLoaded resources ev throwsThen throwsCatch).safety = none ∧
          ∃ t, t + 200 < 8000 ∧
            hideLoaderCalls (onDOMContentLoaded resources ev throwsThen throwsCatch) =
              [t + 200])) := by
  have hT := preload_done_by_6000 ev resources
  have hlt : preloadResources 6000 ev resources < 8000 := by omega
  by_cases h1 : initialisers.any throwsThen = true
  · by_cases h2 : initialisers.any throwsCatch = true
    · have e : onDOMContentLoaded resources ev throwsThen throwsCatch =
          { safety := some 8000, hideTimers := [] } := by
        simp only [onDOMContentLoaded, runInit, h1, h2, if_true]
      rw [e]
      exact ⟨⟨8000, by simp [hideLoaderCalls], le_refl _⟩, Or.inl ⟨rfl, by simp [hideLoaderCalls]⟩⟩
    · have e : onDOMContentLoaded resources ev throwsThen throwsCatch =
          { safety := none, hideTimers := [preloadResources 6000 ev resources + 200] } := by
        simp only [onDOMContentLoaded, runInit, h1, h2, if_true, clearSafety, hlt]
        simp
      rw [e]
      refine ⟨⟨preloadResources 6000 ev resources + 200, by simp [hideLoaderCalls], by omega⟩,
        Or.inr ⟨rfl, preloadResources 6000 ev resources, by omega, by simp [hideLoaderCalls]⟩⟩
  · have e : onDOMContentLoaded resources ev throwsThen throwsCatch =
        { safety := none, hideTimers := [preloadResources 6000 ev resources + 200] } := by
      simp only [onDOMContentLoaded, runInit, h1, clearSafety, hlt]
      simp
    rw [e]
    refine ⟨⟨preloadResources 6000 ev resources + 200, by simp [hideLoaderCalls], by omega⟩,
      Or.inr ⟨rfl, preloadResources 6000 ev resources, by omega, by simp [hideLoaderCalls]⟩⟩

/-! ## Content loaders: theorems -/

theorem sortsBefore_iff (a b : Repo) :
    sortsBefore a b ↔ b.stargazers_count ≤ a.stargazers_count := by
  unfold sortsBefore starCompare
  omega

theorem rankedRepos_sorted (repos : List Repo) :
    (rankedRepos repos).Pairwise sortsBefore := by
  haveI : IsTotal Repo sortsBefore :=
    ⟨fun a b => by simp only [sortsBefore_iff]; exact Nat.le_total _ _⟩
  haveI : IsTrans Repo sortsBefore :=
    ⟨fun a b c h1 h2 => by
      simp only [sortsBefore_iff] at *; exact Nat.le_trans h2 h1⟩
  exact List.sorted_insertionSort sortsBefore _

theorem rankedRepos_perm (repos : List Repo) :
    (rankedRepos repos).Perm (repos.filter (fun repo => !repo.fork)) :=
  List.perm_insertionSort sortsBefore _

/-- C3: for every fetched list, the list `loadGitHubRepos` renders holds only non-forked
repositories, is ordered by non-increasing star count, has length
`min 6 (number of non-forked repositories)`, and together with the repositories cut off
is a rearrangement of the non-forked ones, none of those cut off having more stars than a
rendered one; on a page with spinner, template and container the cards appended are the
cards of exactly this list, in this order. -/
theorem sortedRepos_rendered (repos : List Repo) :
    (∀ r ∈ sortedRepos repos, r.fork = false) ∧
      (sortedRepos repos).Pairwise (fun a b => b.stargazers_count ≤ a.stargazers_count) ∧
      (sortedRepos repos).length = min 6 (repos.filter (fun repo => !repo.fork)).length ∧
      (sortedRepos repos ++ leftOutRepos repos).Perm (repos.filter (fun repo => !repo.fork)) ∧
      (∀ x ∈ leftOutRepos repos, ∀ y ∈ sortedRepos repos,
        x.stargazers_count ≤ y.stargazers_count) ∧
      (∀ (d : Dom) (sp : String) (rest : List String) (cards : List RepoCard),
        loadGitHubRepos (.ok repos)
            { d with spinners := sp :: rest, repoTemplate := true, githubRepos := some cards } =
          ⟨{ d with spinners := rest, repoTemplate := true,
                    githubRepos := some (cards ++ (sortedRepos repos).map repoCard) }, false⟩) := by
  have hsorted := rankedRepos_sorted repos
  have hperm := rankedRepos_perm repos
  have hsplit : sortedRepos repos ++ leftOutRepos repos = rankedRepos repos :=
    List.take_append_drop 6 _
  refine ⟨?_, ?_, ?_, ?_, ?_, ?_⟩
  · intro r hr
    have h1 : r ∈ rankedRepos repos := List.mem_of_mem_take hr
    have h2 := (hperm.mem_iff).1 h1
    simpa using (List.mem_filter.1 h2).2
  · have h1 : (sortedRepos repos).Pairwise sortsBefore :=
      hsorted.sublist (List.take_sublist 6 _)
    exact h1.imp (fun {a b} h => (sortsBefore_iff a b).1 h)
  · unfold sortedRepos
    rw [List.length_take, hperm.length_eq]
  · rw [hsplit]; exact hperm
  · intro x hx y hy
    rw [← hsplit, List.pairwise_append] at hsorted
    exact (sortsBefore_iff y x).1 (hsorted.2.2 y hy x hx)
  · intro d sp rest cards
    cases h : sortedRepos repos with
    | nil => simp [loadGitHubRepos, h]
    | cons r rs => simp [loadGitHubRepos, h]

/-- Witness for C3: of eight fetched repositories one is a fork and seven are not; the
six rendered start with the seven-star one, and the star-less `notes` is the one cut off. -/
theorem sortedRepos_rendered_witness :
    (sortedRepos sampleRepos).map Repo.name =
        ["wallpapers", "portfolio", "todo-app", "dotfiles", "scripts", "api-demo"] ∧
      (leftOutRepos sampleRepos).map Repo.name = ["notes"] ∧
      (sortedRepos sampleRepos).length = min 6 (sampleRepos.filter (fun repo => !repo.fork)).length ∧
      (⟨"notes", some "", none, 0, "https://github.com/amevrynx/notes", false⟩ : Repo).stargazers_count ≤
        (⟨"api-demo", none, some "JavaScript", 1, "https://github.com/amevrynx/api-demo", false⟩ :
          Repo).stargazers_count :=
  ⟨by decide, by decide, (sortedRepos_rendered sampleRepos).2.2.1,
    (sortedRepos_rendered sampleRepos).2.2.2.2.1 _ (by decide) _ (by decide)⟩

/-- C8 (amended): when its fetch rejects or the JSON parse fails, `loadGitHubRepos` on a
page with a loading spinner writes the error message into that spinner, its promise
resolves, and it changes no container; `loadCertifications`, `loadEducation` and
`loadSkills` only log the error, raise nothing, and leave everything a visitor can see
(spinner and all four containers) unchanged. -/
theorem loaders_on_failure (parse : Bool) (d : Dom) (sp : String) (rest : List String) :
    ((loadGitHubRepos (failedFetch parse) { d with spinners := sp :: rest }).raised = false ∧
      visible (loadGitHubRepos (failedFetch parse) { d with spinners := sp :: rest }).state =
        visible { d with spinners := repoErrorHtml :: rest }) ∧
      ((loadCertifications (failedFetch parse) d).raised = false ∧
        visible (loadCertifications (failedFetch parse) d).state = visible d ∧
        (loadCertifications (failedFetch parse) d).state.console =
          d.console ++ ["Error loading certifications:"]) ∧
      ((loadEducation (failedFetch parse) d).raised = false ∧
        visible (loadEducation (failedFetch parse) d).state = visible d ∧
        (loadEducation (failedFetch parse) d).state.console =
          d.console ++ ["Error loading education data:"]) ∧
      ((loadSkills (failedFetch parse) d).raised = false ∧
        visible (loadSkills (failedFetch parse) d).state = visible d ∧
        (loadSkills (failedFetch parse) d).state.console =
          d.console ++ ["Error loading skills data:"]) := by
  cases parse <;>
    simp [failedFetch, loadGitHubRepos, repoCatch, loadCertifications, loadEducation,
      loadSkills, loadStatic, visible]

/-- Counterexample to C8 as stated: when the certifications fetch rejects, nothing a
visitor can see changes, so no error message replaces a loading indicator; the same holds
for the education and the skills loader. -/
theorem static_loader_failure_invisible :
    visible (loadCertifications Fetched.rejected samplePage).state = visible samplePage ∧
      visible (loadEducation Fetched.rejected samplePage).state = visible samplePage ∧
      visible (loadSkills Fetched.parseError samplePage).state = visible samplePage ∧
      (loadCertifications Fetched.rejected samplePage).state.spinners =
        ["Loading repositories..."] := by
  decide

/-! ## Matrix background: theorems -/

theorem assignAt_length_eq (drops : List (Option Nat)) (v : Nat) :
    assignAt drops drops.length v = drops ++ [some v] := by
  simp [assignAt]

/-- Filling from the end of the array appends one drawn value per new column. -/
theorem fill_from_end (rnd : Nat → Nat) (k : Nat) : ∀ (c : Nat) (drops : List (Option Nat)),
    drops.length = c →
    (List.range' c k).foldl (fun acc i => assignAt acc i (rnd i)) drops =
      drops ++ (List.range' c k).map (fun i => some (rnd i)) := by
  induction k with
  | zero => intro c drops _; simp
  | succ k ih =>
    intro c drops h
    subst h
    rw [List.range'_succ, List.foldl_cons, assignAt_length_eq, ih (drops.length + 1) _ (by simp)]
    simp

theorem resizeCanvas_columns (w h : Nat) (rnd : Nat → Nat) (m : Matrix) :
    (resizeCanvas w h rnd m).columns = max 1 (w / fontSize) := by
  unfold resizeCanvas
  by_cases hz : w / fontSize = 0
  · simp [hz]
  · simp only [hz, if_false]
    generalize w / fontSize = q at hz
    omega

/-- The array has one entry per column after `resizeCanvas` whenever it had before, and
the entries below both column counts are untouched. -/
theorem resizeCanvas_keeps (w h : Nat) (rnd : Nat → Nat) (m : Matrix)
    (hm : m.drops.length = m.columns) :
    (resizeCanvas w h rnd m).drops.length = (resizeCanvas w h rnd m).columns ∧
      ∀ i, i < min m.columns (resizeCanvas w h rnd m).columns →
        (resizeCanvas w h rnd m).drops[i]? = m.drops[i]? := by
  rw [resizeCanvas_columns]
  have hc := resizeCanvas_columns w h rnd m
  generalize hn : max 1 (w / fontSize) = n at *
  have hd : (resizeCanvas w h rnd m).drops =
      if n > m.columns then fillDrops rnd m.columns n m.drops
      else if n < m.columns then setLength m.drops n else m.drops := by
    have : (if w / fontSize = 0 then 1 else w / fontSize) = n := by
      rw [← hn]
      generalize w / fontSize = q
      split <;> omega
    simp only [resizeCanvas, this]
  rw [hd]
  by_cases h1 : n > m.columns
  · simp only [h1, if_true, fillDrops]
    rw [fill_from_end rnd _ _ _ hm]
    constructor
    · simp; omega
    · intro i hi
      rw [List.getElem?_append_left (by omega)]
  · by_cases h2 : n < m.columns
    · simp only [h1, h2, if_true, if_false, setLength]
      have hz : n - m.drops.length = 0 := by omega
      rw [hz]
      constructor
      · simp; omega
      · intro i hi
        simp only [List.replicate_zero, List.append_nil]
        rw [List.getElem?_take_of_lt (by omega)]
    · rw [if_neg h1, if_neg h2]
      exact ⟨by omega, fun _ _ => rfl⟩

/-- C9 (amended): after `resizeCanvas` ran at width `W1` and then at width `W2` the column
count is `floor(W2 / fontSize)`, but 1 when that is 0; the drops array has exactly that
many entries; and the entry at every index below the smaller of the two column counts is
unchanged by the second run. -/
theorem resizeCanvas_twice (W1 H1 W2 H2 : Nat) (rnd1 rnd2 : Nat → Nat) :
    (resizeCanvas W2 H2 rnd2 (resizeCanvas W1 H1 rnd1 Matrix.initial)).columns =
        max 1 (W2 / fontSize) ∧
      (resizeCanvas W2 H2 rnd2 (resizeCanvas W1 H1 rnd1 Matrix.initial)).drops.length =
        (resizeCanvas W2 H2 rnd2 (resizeCanvas W1 H1 rnd1 Matrix.initial)).columns ∧
      ∀ i, i < min (resizeCanvas W1 H1 rnd1 Matrix.initial).columns
            (resizeCanvas W2 H2 rnd2 (resizeCanvas W1 H1 rnd1 Matrix.initial)).columns →
        (resizeCanvas W2 H2 rnd2 (resizeCanvas W1 H1 rnd1 Matrix.initial)).drops[i]? =
          (resizeCanvas W1 H1 rnd1 Matrix.initial).drops[i]? := by
  have h1 := (resizeCanvas_keeps W1 H1 rnd1 Matrix.initial rfl).1
  have h2 := resizeCanvas_keeps W2 H2 rnd2 _ h1
  exact ⟨resizeCanvas_columns W2 H2 rnd2 _, h2.1, h2.2⟩

/-- Witness for C9: shrinking from width 100 (six columns) to width 40 (two columns)
keeps the drop of column 1. -/
theorem resizeCanvas_twice_witness :
    1 < min (resizeCanvas 100 100 (fun _ => 7) Matrix.initial).columns
          (resizeCanvas 40 100 (fun _ => 0)
            (resizeCanvas 100 100 (fun _ => 7) Matrix.initial)).columns ∧
      (resizeCanvas 40 100 (fun _ => 0)
          (resizeCanvas 100 100 (fun _ => 7) Matrix.initial)).drops[1]? =
        (resizeCanvas 100 100 (fun _ => 7) Matrix.initial).drops[1]? :=
  ⟨by decide, (resizeCanvas_twice 100 100 40 100 (fun _ => 7) (fun _ => 0)).2.2 1 (by decide)⟩

/-- Counterexample to C9 as stated: resizing from width 100 to width 10 leaves one column
and one drop, although `floor(10 / 16)` is 0. -/
theorem resizeCanvas_narrow_window :
    (resizeCanvas 10 100 (fun _ => 0) (resizeCanvas 100 100 (fun _ => 7) Matrix.initial)).columns
        = 1 ∧
      (resizeCanvas 10 100 (fun _ => 0)
        (resizeCanvas 100 100 (fun _ => 7) Matrix.initial)).drops = [some 7] ∧
      10 / fontSize = 0 := by
  decide

/-! ## Section observer: theorems -/

theorem initSectionObserver_connected (now : Nat) (s : Spy)
    (h : s.connected = if s.observer then 1 else 0) :
    (initSectionObserver now s).observer = true ∧ (initSectionObserver now s).connected = 1 := by
  unfold initSectionObserver
  cases ho : s.observer <;> simp [ho] at h ⊢ <;> omega

/-- Running the callbacks of `n` timers due at `d`, one after the other. -/
theorem run_due_timers (d : Nat) (n : Nat) : ∀ s : Spy,
    ((List.replicate n d).foldl (fun acc t => initSectionObserver t acc) s).runs =
        s.runs ++ List.replicate n d ∧
      ((List.replicate n d).foldl (fun acc t => initSectionObserver t acc) s).listeners =
        s.listeners ++ List.replicate n none := by
  induction n with
  | zero => intro s; simp
  | succ n ih =>
    intro s
    rw [List.replicate_succ, List.foldl_cons]
    obtain ⟨h1, h2⟩ := ih (initSectionObserver d s)
    rw [h1, h2]
    have e1 : (initSectionObserver d s).runs = s.runs ++ [d] := by
      unfold initSectionObserver; split <;> rfl
    have e2 : (initSectionObserver d s).listeners = s.listeners ++ [none] := by
      unfold initSectionObserver; split <;> rfl
    rw [e1, e2]
    constructor
    · simp [List.replicate_succ]
    · simp [List.replicate_succ]

theorem initSectionObserver_one (now : Nat) (s : Spy)
    (h : s.observer = true ∧ s.connected = 1) :
    (initSectionObserver now s).observer = true ∧ (initSectionObserver now s).connected = 1 :=
  initSectionObserver_connected now s (by rw [h.1, h.2]; rfl)

theorem run_timers_one (ds : List Nat) : ∀ s : Spy,
    s.observer = true ∧ s.connected = 1 →
    (ds.foldl (fun acc t => initSectionObserver t acc) s).observer = true ∧
      (ds.foldl (fun acc t => initSectionObserver t acc) s).connected = 1 := by
  induction ds with
  | nil => intro s h; exact h
  | cons d ds ih =>
    intro s h
    rw [List.foldl_cons]
    exact ih _ (initSectionObserver_one d s h)

theorem advanceTo_one (t : Nat) (s : Spy) (h : s.observer = true ∧ s.connected = 1) :
    (advanceTo t s).observer = true ∧ (advanceTo t s).connected = 1 := by
  unfold advanceTo
  exact run_timers_one _ _ h

theorem resizeAll_one (ts : List Nat) : ∀ s : Spy,
    s.observer = true ∧ s.connected = 1 →
    (resizeAll ts s).observer = true ∧ (resizeAll ts s).connected = 1 := by
  induction ts with
  | nil => intro s h; exact h
  | cons t ts ih =>
    intro s h
    exact ih _ (advanceTo_one t s h)

/-- Whatever the `resize` events, exactly one section observer is connected at any
moment after the first call. -/
theorem one_observer_connected (start : Nat) (events : List Nat) (horizon : Nat) :
    (runSpy start events horizon).connected = 1 :=
  (advanceTo_one horizon _
    (resizeAll_one events _ (initSectionObserver_connected start Spy.initial rfl))).2

/-- One `resize` event at time `t` followed by 250 quiet milliseconds re-runs
`initSectionObserver` once per registered listener, and doubles the listeners. -/
theorem burst_reruns_once_per_listener (t : Nat) (s : Spy) :
    (advanceTo (t + 250) (onResize t s)).runs =
        s.runs ++ List.replicate s.listeners.length (t + 250) ∧
      (advanceTo (t + 250) (onResize t s)).listeners.length = 2 * s.listeners.length := by
  have hdue : dueTimers (t + 250) (onResize t s) = List.replicate s.listeners.length (t + 250) := by
    simp only [dueTimers, onResize]
    induction s.listeners with
    | nil => rfl
    | cons a l ih => simp [List.replicate_succ, ih]
  unfold advanceTo
  simp only [hdue]
  rw [(run_due_timers (t + 250) s.listeners.length _).1,
    (run_due_timers (t + 250) s.listeners.length _).2]
  constructor
  · simp [onResize]
  · simp [onResize]; omega

/-- C10, evaluated on two single-event bursts: after the first call at time 0 and `resize`
events at 1000 ms and 2000 ms, `initSectionObserver` re-runs once at 1250 ms and twice at
2250 ms, four listeners are registered at the end, and one observer is connected. -/
theorem second_burst_reruns_twice :
    (runSpy 0 [1000, 2000] 5000).runs = [0, 1250, 2250, 2250] ∧
      rerunsBetween 1000 2000 (runSpy 0 [1000, 2000] 5000) = [1250] ∧
      rerunsBetween 2000 5000 (runSpy 0 [1000, 2000] 5000) = [2250, 2250] ∧
      (runSpy 0 [1000, 2000] 5000).listeners.length = 4 ∧
      (runSpy 0 [1000, 2000] 5000).connected = 1 := by
  decide

end Portfolio
